import Mathlib

/-!
Verification of cli_music_player.py (lyk64/cli-music-player).

This file is a shallow embedding of the three classes of the source file:

* MusicPlayer — the playback engine.  Its mutable state (set up in
  MusicPlayer.__init__) is is_playing, is_shuffling, current_song_index and
  the in-memory songs list.  Wherever a method calls os.listdir on the songs
  folder, the directory listing is passed as an explicit parameter; the
  outcome of pygame loading a file, the permutation produced by
  random.shuffle, and the draw of random.randint are oracle parameters,
  constrained exactly where the source library constrains them.

* MusicDownloader — acquisition.  Network calls (get_url + download inside
  save_batch) are modelled by an oracle giving each query a terminal Boolean
  outcome, matching download returning True or False (every exception is
  caught there).  The title computation of MusicDownloader.fix is embedded
  character by character.

* batch_add_songs concurrency — the Semaphore(10) discipline of
  save_with_semaphore is modelled as a trace semantics: an event trace is
  valid when it can be executed against a permit counter that starts at 10,
  where acquiring blocks (is impossible) at zero permits and the body of the
  with-block (resolve+fetch work, and the release) happens only while the
  job holds a permit.
-/

/-- State of a MusicPlayer object: the four instance attributes assigned in
MusicPlayer.__init__ that the playback methods read and write
(is_playing, is_shuffling, current_song_index, songs). -/
structure PlayerState where
  is_playing : Bool
  is_shuffling : Bool
  current_song_index : Int
  songs : List String
deriving Repr, DecidableEq

/-- Observable outcome of a navigation method: which message the source
prints, or that it loaded and started a track. -/
inductive NavResult where
  | played
  | emptyPlaylist
  | invalidIndex
  | invalidDirection
  | loadError
deriving Repr, DecidableEq

/-- MusicPlayer.get_song_list: list the songs folder, keep the files ending
in ".mp3" (file.endswith), and strip the last four characters of each name
(file[:-4]).  Both operations are modelled on the character sequence of the
file name. -/
def get_song_list (dir : List String) : List String :=
  (dir.filter (fun f => (".mp3".toList).isSuffixOf f.toList)).map
    (fun f => ⟨f.toList.take (f.toList.length - 4)⟩)

/-- MusicPlayer.refresh_list: self.songs = self.get_song_list(). -/
def refresh_list (s : PlayerState) (dir : List String) : PlayerState :=
  { s with songs := get_song_list dir }

/-- MusicPlayer.play_selected_song: if songs is empty print an error;
otherwise load and play songs[current_song_index].  load_ok tells whether
pygame.mixer.music.load succeeded; on a pygame.error the method only prints,
leaving is_playing as it was. -/
def play_selected_song (s : PlayerState) (load_ok : Bool) : PlayerState × NavResult :=
  if s.songs = [] then (s, NavResult.emptyPlaylist)
  else if load_ok then ({ s with is_playing := true }, NavResult.played)
  else (s, NavResult.loadError)

/-- MusicPlayer.play_specific_song: refresh_list first, then report an error
on an empty list, then check 0 <= index < len(songs) and either set
current_song_index and play, or report an invalid index. -/
def play_specific_song (s : PlayerState) (dir : List String) (index : Int)
    (load_ok : Bool) : PlayerState × NavResult :=
  let s1 := refresh_list s dir
  if s1.songs = [] then (s1, NavResult.emptyPlaylist)
  else if 0 ≤ index ∧ index < (s1.songs.length : Int) then
    play_selected_song { s1 with current_song_index := index } load_ok
  else (s1, NavResult.invalidIndex)

/-- MusicPlayer.toggle_shuffle: flip is_shuffling; when it becomes true,
random.shuffle permutes self.songs in place (the permuted list is the
shuffled parameter); when it becomes false, refresh_list restores the
directory listing. -/
def toggle_shuffle (s : PlayerState) (shuffled : List String) (dir : List String) :
    PlayerState :=
  let s1 := { s with is_shuffling := !s.is_shuffling }
  if s1.is_shuffling then { s1 with songs := shuffled }
  else refresh_list s1 dir

/-- MusicPlayer.play_song: with a non-empty list, under shuffle jump to
random.randint(0, len-1) (the draw parameter); otherwise step the index by
one with Python's nonnegative % len wraparound for "next" / "previous", and
report any other direction as invalid.  An empty list only prints an
error. -/
def play_song (s : PlayerState) (direction : String) (draw : Int) (load_ok : Bool) :
    PlayerState × NavResult :=
  if s.songs = [] then (s, NavResult.emptyPlaylist)
  else if s.is_shuffling = true then
    play_selected_song { s with current_song_index := draw } load_ok
  else if direction = "next" then
    play_selected_song
      { s with current_song_index := (s.current_song_index + 1) % (s.songs.length : Int) }
      load_ok
  else if direction = "previous" then
    play_selected_song
      { s with current_song_index := (s.current_song_index - 1) % (s.songs.length : Int) }
      load_ok
  else (s, NavResult.invalidDirection)

/-- MusicPlayer.pause: only when a song is playing, pause and clear
is_playing. -/
def pause (s : PlayerState) : PlayerState :=
  if s.is_playing then { s with is_playing := false } else s

/-- MusicPlayer.play: only when nothing is playing, unpause and set
is_playing. -/
def play (s : PlayerState) : PlayerState :=
  if s.is_playing then s else { s with is_playing := true }

/-- The event loop of MusicPlayer.handle_events: on the end-of-track event
(pygame.USEREVENT + 1) it calls self.play_song("next"). -/
def handle_track_finished (s : PlayerState) (draw : Int) (load_ok : Bool) :
    PlayerState × NavResult :=
  play_song s "next" draw load_ok

/-- The "next" entry of CLI.handle_command's command_map:
lambda: self.music_player.play_song("next"). -/
def cli_next_command (s : PlayerState) (draw : Int) (load_ok : Bool) :
    PlayerState × NavResult :=
  play_song s "next" draw load_ok

/-- States a MusicPlayer object can reach: the initial state built by
MusicPlayer.__init__, closed under the methods the CLI and the event loop
invoke.  The directory listing, the load outcome, the shuffle permutation
and the random draw are arbitrary at each step, except that random.shuffle
yields a permutation of the current list and random.randint(0, len-1) a
value in [0, len). -/
inductive Reachable : PlayerState → Prop
  | init :
      Reachable { is_playing := false, is_shuffling := false,
                  current_song_index := 0, songs := [] }
  | pause_step (s : PlayerState) : Reachable s → Reachable (pause s)
  | play_step (s : PlayerState) : Reachable s → Reachable (play s)
  | select_step (s : PlayerState) (d : List String) (i : Int) (lo : Bool) :
      Reachable s → Reachable (play_specific_song s d i lo).1
  | nav_step (s : PlayerState) (direction : String) (draw : Int) (lo : Bool) :
      Reachable s →
      (s.is_shuffling = true → s.songs ≠ [] →
        0 ≤ draw ∧ draw < (s.songs.length : Int)) →
      Reachable (play_song s direction draw lo).1
  | shuffle_step (s : PlayerState) (shuffled d : List String) :
      Reachable s → shuffled.Perm s.songs →
      Reachable (toggle_shuffle s shuffled d)

/-- Characters kept by MusicDownloader.fix's regular expression: the pattern
re.compile(r'[^a-zA-Z0-9]') removes every character that is not an ASCII
letter or digit. -/
def is_ascii_alnum (c : Char) : Bool :=
  c.isAlpha || c.isDigit

/-- The title computed inside MusicDownloader.fix for a staged file name:
take downloaded_file[:-4], delete every character outside [a-zA-Z0-9]
(pattern.sub), then delete the remaining spaces (new_title.replace(" ", ""),
a no-op after the substitution).  The staged file is then renamed and moved
to the songs folder as "<new_title>.mp3". -/
def fix_new_title (downloaded_file : String) : String :=
  let base := downloaded_file.toList.take (downloaded_file.toList.length - 4)
  let substituted := base.filter (fun c => is_ascii_alnum c)
  let replaced := substituted.filter (fun c => c ≠ ' ')
  ⟨replaced⟩

/-- The jobs dispatched by MusicPlayer.batch_add_songs for the query list
split out of the batch file: songs_list = list(set(songs_list)) keeps each
distinct query string exactly once (Python set iteration order is
arbitrary; only the underlying set matters), and one download thread is
started per remaining entry. -/
def batch_jobs (songs_list : List String) : List String :=
  songs_list.dedup

/-- MusicPlayer.batch_add_songs after the parse phase: one thread per
deduplicated query runs save_with_semaphore -> MusicDownloader.save_batch,
whose download call ends in a terminal Boolean outcome (True on success,
False on any caught exception); every thread is joined before the method
returns, so the joined run is the list of all per-job outcomes.
download_ok is the oracle for the network. -/
def batch_add_songs (songs_list : List String) (download_ok : String → Bool) :
    List (String × Bool) :=
  (batch_jobs songs_list).map (fun q => (q, download_ok q))

/-- Number of dispatched jobs whose download succeeded in a joined batch
run. -/
def succeeded_count (songs_list : List String) (download_ok : String → Bool) : Nat :=
  ((batch_add_songs songs_list download_ok).filter (fun r => r.2)).length

/-- Number of dispatched jobs whose download failed in a joined batch
run. -/
def failed_count (songs_list : List String) (download_ok : String → Bool) : Nat :=
  ((batch_add_songs songs_list download_ok).filter (fun r => !r.2)).length

/-- Number of batch entries skipped by the list(set(...)) deduplication:
the duplicates removed from the raw query list. -/
def skipped_count (songs_list : List String) : Nat :=
  songs_list.length - (batch_jobs songs_list).length

/-- One scheduler event of the batch download phase: thread j acquires the
semaphore, performs a resolve+fetch step of save_batch, or releases the
semaphore on leaving the with-block. -/
inductive PoolEvent where
  | acquire (j : Nat)
  | work (j : Nat)
  | release (j : Nat)
deriving Repr, DecidableEq

/-- State of threading.Semaphore(10) together with the with-block
discipline of save_with_semaphore: the remaining permits and the jobs
currently inside their with-block. -/
structure SemState where
  avail : Nat
  holders : List Nat
deriving Repr, DecidableEq

/-- One step of the semaphore semantics.  Acquiring with zero permits
blocks, so it cannot occur in an executed trace (none); resolve+fetch work
and the release are emitted by the body of save_with_semaphore, hence only
by a job currently holding a permit. -/
def sem_step (st : Option SemState) (e : PoolEvent) : Option SemState :=
  match st with
  | none => none
  | some st =>
    match e with
    | PoolEvent.acquire j =>
        if st.avail = 0 then none else some ⟨st.avail - 1, j :: st.holders⟩
    | PoolEvent.work j =>
        if j ∈ st.holders then some st else none
    | PoolEvent.release j =>
        if j ∈ st.holders then some ⟨st.avail + 1, st.holders.erase j⟩ else none

/-- Execute an event trace against semaphore = threading.Semaphore(k),
starting from k free permits and no job inside its with-block. -/
def sem_run (k : Nat) (tr : List PoolEvent) : Option SemState :=
  tr.foldl sem_step (some ⟨k, []⟩)

/-- play_selected_song never changes current_song_index. -/
theorem play_selected_song_index (t : PlayerState) (lo : Bool) :
    (play_selected_song t lo).1.current_song_index = t.current_song_index := by
  unfold play_selected_song
  split
  · rfl
  · split <;> rfl

/-- play_selected_song never changes the songs list. -/
theorem play_selected_song_songs (t : PlayerState) (lo : Bool) :
    (play_selected_song t lo).1.songs = t.songs := by
  unfold play_selected_song
  split
  · rfl
  · split <;> rfl

/-- Reading back an index written into the state. -/
theorem set_index_current (s : PlayerState) (i : Int) :
    ({ s with current_song_index := i } : PlayerState).current_song_index = i := rfl

/-- A failed sem_step stays failed along the rest of the trace. -/
theorem sem_foldl_none (t : List PoolEvent) : t.foldl sem_step none = none := by
  induction t with
  | nil => rfl
  | cons e t ih => simpa [sem_step] using ih

/-- The semaphore semantics keeps permits-plus-holders constant: every
executed trace preserves avail + number of with-block holders. -/
theorem sem_run_inv (k : Nat) :
    ∀ (tr : List PoolEvent) (st0 st : SemState),
      st0.avail + st0.holders.length = k →
      tr.foldl sem_step (some st0) = some st →
      st.avail + st.holders.length = k := by
  intro tr
  induction tr with
  | nil =>
    intro st0 st h hrun
    simp only [List.foldl_nil, Option.some.injEq] at hrun
    rw [← hrun]
    exact h
  | cons e t ih =>
    intro st0 st h hrun
    rw [List.foldl_cons] at hrun
    cases e with
    | acquire j =>
      by_cases ha : st0.avail = 0
      · rw [show sem_step (some st0) (PoolEvent.acquire j) = none by
            simp [sem_step, ha]] at hrun
        rw [sem_foldl_none] at hrun
        cases hrun
      · refine ih ⟨st0.avail - 1, j :: st0.holders⟩ st ?_ ?_
        · simp only [List.length_cons]
          omega
        · rw [show sem_step (some st0) (PoolEvent.acquire j)
              = some ⟨st0.avail - 1, j :: st0.holders⟩ by simp [sem_step, ha]] at hrun
          exact hrun
    | work j =>
      by_cases hj : j ∈ st0.holders
      · refine ih st0 st h ?_
        rw [show sem_step (some st0) (PoolEvent.work j) = some st0 by
            simp [sem_step, hj]] at hrun
        exact hrun
      · rw [show sem_step (some st0) (PoolEvent.work j) = none by
            simp [sem_step, hj]] at hrun
        rw [sem_foldl_none] at hrun
        cases hrun
    | release j =>
      by_cases hj : j ∈ st0.holders
      · refine ih ⟨st0.avail + 1, st0.holders.erase j⟩ st ?_ ?_
        · have hlen : (st0.holders.erase j).length = st0.holders.length - 1 :=
            List.length_erase_of_mem hj
          have hpos : 0 < st0.holders.length := List.length_pos_of_mem hj
          simp only [hlen]
          omega
        · rw [show sem_step (some st0) (PoolEvent.release j)
              = some ⟨st0.avail + 1, st0.holders.erase j⟩ by simp [sem_step, hj]] at hrun
          exact hrun
      · rw [show sem_step (some st0) (PoolEvent.release j) = none by
            simp [sem_step, hj]] at hrun
        rw [sem_foldl_none] at hrun
        cases hrun

/-- C5: at no point during a batch run are more than the concurrency limit
of 10 resolve+fetch tasks inside the with-block of save_with_semaphore: in
every executed prefix of an event trace under threading.Semaphore(10), the
set of jobs currently holding a permit has at most 10 members; an eleventh
acquire is impossible (it blocks) until a slot frees. -/
theorem c5_semaphore_bound (tr : List PoolEvent) (n : Nat) (st : SemState)
    (hrun : sem_run 10 (tr.take n) = some st) :
    st.holders.length ≤ 10 := by
  have h := sem_run_inv 10 (tr.take n) ⟨10, []⟩ st (by simp) hrun
  omega

theorem c5_semaphore_bound_witness :
    sem_run 10 ([PoolEvent.acquire 0, PoolEvent.work 0, PoolEvent.release 0].take 2)
        = some ⟨9, [0]⟩ ∧ (SemState.mk 9 [0]).holders.length ≤ 10 :=
  ⟨by decide,
    c5_semaphore_bound [PoolEvent.acquire 0, PoolEvent.work 0, PoolEvent.release 0] 2
      ⟨9, [0]⟩ (by decide)⟩

/-- C4: batch_add_songs dispatches exactly one download job per distinct
query string of the batch: the dispatched job list is duplicate-free and a
query gets a job exactly when it occurs (as an exact string) in the raw
list, duplicates collapsing to that single job. -/
theorem c4_dedup_dispatch (songs_list : List String) (q : String) :
    (batch_jobs songs_list).Nodup ∧
      ((batch_jobs songs_list).count q = if q ∈ songs_list then 1 else 0) :=
  ⟨List.nodup_dedup songs_list, List.count_dedup songs_list q⟩

/-- Splitting a joined batch run by terminal outcome loses no job. -/
theorem filter_outcome_split (l : List (String × Bool)) :
    (l.filter (fun r => r.2)).length + (l.filter (fun r => !r.2)).length = l.length := by
  induction l with
  | nil => rfl
  | cons a t ih =>
    cases h : a.2 <;> simp [List.filter_cons, h] <;> omega

/-- C3 counterexample: for the batch ["a", "a"] with a succeeding download,
the succeeded + failed + duplicate-skipped counts are 1 + 0 + 1 = 2, which
is not the number of distinct queries (1): the sum equals the total number
of batch entries instead. -/
theorem c3_counterexample :
    ¬ (succeeded_count ["a", "a"] (fun _ => true)
        + failed_count ["a", "a"] (fun _ => true)
        + skipped_count ["a", "a"]
        = (batch_jobs ["a", "a"]).length) := by decide

/-- C3 amended: batch_add_songs joins every dispatched job, so the joined
run records a terminal Boolean outcome for each deduplicated query, and the
succeeded + failed + duplicate-skipped counts sum to the total number of
queries in the batch (succeeded + failed alone equals the number of
distinct queries). -/
theorem c3_join_and_counts (songs_list : List String) (download_ok : String → Bool) :
    (∀ q ∈ batch_jobs songs_list,
        (q, download_ok q) ∈ batch_add_songs songs_list download_ok) ∧
    succeeded_count songs_list download_ok + failed_count songs_list download_ok
        + skipped_count songs_list = songs_list.length ∧
    succeeded_count songs_list download_ok + failed_count songs_list download_ok
        = (batch_jobs songs_list).length := by
  have hsplit := filter_outcome_split (batch_add_songs songs_list download_ok)
  have hlen : (batch_add_songs songs_list download_ok).length
      = (batch_jobs songs_list).length := by
    simp [batch_add_songs]
  have hle : (batch_jobs songs_list).length ≤ songs_list.length :=
    (List.dedup_sublist songs_list).length_le
  refine ⟨?_, ?_, ?_⟩
  · intro q hq
    exact List.mem_map_of_mem _ hq
  · unfold succeeded_count failed_count skipped_count
    omega
  · unfold succeeded_count failed_count
    omega

theorem c3_join_and_counts_witness :
    ("a" ∈ batch_jobs ["a", "b"]) ∧
      ("a", true) ∈ batch_add_songs ["a", "b"] (fun _ => true) :=
  ⟨by decide, (c3_join_and_counts ["a", "b"] (fun _ => true)).1 "a" (by decide)⟩

/-- C2 counterexample: a staged file whose raw title has no ASCII
alphanumeric character at all is promoted under the empty title — the
sanitized name is not non-empty. -/
theorem c2_counterexample : fix_new_title "!!!.mp3" = "" := by decide

/-- C2 amended: every character of the title computed by
MusicDownloader.fix is an ASCII letter or digit — the promoted title
matches the regular expression of zero or more [A-Za-z0-9] characters and
contains no space — but it can be empty. -/
theorem c2_sanitized_title_alnum (raw : String) (c : Char)
    (hc : c ∈ (fix_new_title raw).toList) :
    is_ascii_alnum c = true ∧ c ≠ ' ' := by
  have hc' : c ∈ ((raw.toList.take (raw.toList.length - 4)).filter
      (fun c => is_ascii_alnum c)).filter (fun c => decide (c ≠ ' ')) := hc
  simp only [List.mem_filter, decide_eq_true_eq] at hc'
  exact ⟨hc'.1.2, hc'.2⟩

theorem c2_sanitized_title_alnum_witness :
    ('s' ∈ (fix_new_title "song 1!.mp3").toList) ∧
      (is_ascii_alnum 's' = true ∧ 's' ≠ ' ') :=
  ⟨by decide, c2_sanitized_title_alnum "song 1!.mp3" 's' (by decide)⟩

/-- C6: on an empty playlist (in-memory list empty and the songs directory
holding no mp3 files, so the derived snapshot is also empty), play_song in
any direction reports the empty-playlist error and leaves the whole state —
in particular current_song_index — unchanged, and play_specific_song, after
its forced refresh, reports the empty-playlist error with
current_song_index unchanged. -/
theorem c6_empty_playlist_safety (s : PlayerState) (d : List String)
    (direction : String) (i draw : Int) (lo : Bool)
    (hmem : s.songs = []) (hdir : get_song_list d = []) :
    play_song s direction draw lo = (s, NavResult.emptyPlaylist) ∧
    (play_specific_song s d i lo).2 = NavResult.emptyPlaylist ∧
    (play_specific_song s d i lo).1.current_song_index = s.current_song_index := by
  refine ⟨?_, ?_, ?_⟩
  · unfold play_song
    rw [if_pos hmem]
  · simp [play_specific_song, refresh_list, hdir]
  · simp [play_specific_song, refresh_list, hdir]

theorem c6_empty_playlist_safety_witness :
    (([] : List String) = [] ∧ get_song_list ["cover.jpg"] = []) ∧
    play_song ⟨false, false, 0, []⟩ "next" 0 true
      = (⟨false, false, 0, []⟩, NavResult.emptyPlaylist) :=
  ⟨⟨rfl, by decide⟩,
    (c6_empty_playlist_safety ⟨false, false, 0, []⟩ ["cover.jpg"] "next" 0 0 true rfl
      (by decide)).1⟩

/-- C7: in non-shuffled mode on a playlist of length n >= 1, play_song
"next" from index n-1 wraps to 0 via (i+1) mod n, and play_song "previous"
from index 0 wraps to n-1 via Python's nonnegative (i-1) mod n. -/
theorem c7_wraparound (s : PlayerState) (n : Nat) (draw : Int) (lo : Bool)
    (hshuf : s.is_shuffling = false) (hn : s.songs.length = n) (hpos : 1 ≤ n) :
    (s.current_song_index = (n : Int) - 1 →
      (play_song s "next" draw lo).1.current_song_index = 0) ∧
    (s.current_song_index = 0 →
      (play_song s "previous" draw lo).1.current_song_index = (n : Int) - 1) := by
  have hne : ¬ (s.songs = []) := by
    intro h
    rw [h] at hn
    simp at hn
    omega
  have hsh : ¬ (s.is_shuffling = true) := by
    rw [hshuf]
    exact Bool.false_ne_true
  constructor
  · intro hidx
    unfold play_song
    rw [if_neg hne, if_neg hsh, if_pos rfl, play_selected_song_index, set_index_current,
      hidx, hn]
    rw [show (n : Int) - 1 + 1 = n by ring]
    exact Int.emod_self
  · intro hidx
    unfold play_song
    rw [if_neg hne, if_neg hsh, if_neg (by decide), if_pos rfl, play_selected_song_index,
      set_index_current, hidx, hn]
    rw [show (0 : Int) - 1 = (n : Int) - 1 + n * (-1) by ring, Int.add_mul_emod_self_left]
    exact Int.emod_eq_of_lt (by omega) (by omega)

theorem c7_wraparound_witness :
    ((⟨false, false, 1, ["a", "b"]⟩ : PlayerState).is_shuffling = false ∧
      (⟨false, false, 1, ["a", "b"]⟩ : PlayerState).songs.length = 2 ∧ 1 ≤ 2) ∧
    (play_song ⟨false, false, 1, ["a", "b"]⟩ "next" 0 true).1.current_song_index = 0 :=
  ⟨⟨rfl, rfl, by decide⟩,
    (c7_wraparound ⟨false, false, 1, ["a", "b"]⟩ 2 0 true rfl rfl (by decide)).1 (by decide)⟩

/-- C8: from a non-shuffling state whose playlist is the directory-order
snapshot, toggling shuffle on (one-time permutation of the list) and then
off (refresh) restores the exact pre-shuffle directory-order playlist,
provided the directory listing is unchanged between the two toggles; the
index and the flag also return to their pre-shuffle values. -/
theorem c8_shuffle_roundtrip (s : PlayerState) (shuffled shuffled2 d : List String)
    (hoff : s.is_shuffling = false) (hsync : s.songs = get_song_list d) :
    (toggle_shuffle (toggle_shuffle s shuffled d) shuffled2 d).songs = s.songs ∧
    (toggle_shuffle (toggle_shuffle s shuffled d) shuffled2 d).is_shuffling = false ∧
    (toggle_shuffle (toggle_shuffle s shuffled d) shuffled2 d).current_song_index
      = s.current_song_index := by
  simp [toggle_shuffle, refresh_list, hoff, hsync]

theorem c8_shuffle_roundtrip_witness :
    ((⟨false, false, 0, ["a"]⟩ : PlayerState).is_shuffling = false ∧
      (⟨false, false, 0, ["a"]⟩ : PlayerState).songs = get_song_list ["a.mp3"]) ∧
    (toggle_shuffle (toggle_shuffle ⟨false, false, 0, ["a"]⟩ ["a"] ["a.mp3"])
      ["x"] ["a.mp3"]).songs = ["a"] :=
  ⟨⟨rfl, by decide⟩,
    (c8_shuffle_roundtrip ⟨false, false, 0, ["a"]⟩ ["a"] ["x"] ["a.mp3"] rfl (by decide)).1⟩

/-- C9: the event loop's reaction to the end-of-track event is the very
function the CLI's manual "next" command runs — play_song with direction
"next" — so on every state, draw and load outcome the two agree; in
particular, under shuffle both set current_song_index to the same
random.randint(0, n-1) draw. -/
theorem c9_auto_advance_eq_next (s : PlayerState) (draw : Int) (lo : Bool) :
    handle_track_finished s draw lo = cli_next_command s draw lo ∧
    (s.is_shuffling = true → s.songs ≠ [] →
      (handle_track_finished s draw lo).1.current_song_index = draw) := by
  refine ⟨rfl, ?_⟩
  intro hshuf hne
  unfold handle_track_finished play_song
  rw [if_neg hne, if_pos hshuf, play_selected_song_index, set_index_current]

theorem c9_auto_advance_eq_next_witness :
    ((⟨false, true, 0, ["a", "b"]⟩ : PlayerState).is_shuffling = true ∧
      (⟨false, true, 0, ["a", "b"]⟩ : PlayerState).songs ≠ []) ∧
    (handle_track_finished ⟨false, true, 0, ["a", "b"]⟩ 1 true).1.current_song_index = 1 :=
  ⟨⟨rfl, by decide⟩,
    (c9_auto_advance_eq_next ⟨false, true, 0, ["a", "b"]⟩ 1 true).2 rfl (by decide)⟩

/-- C10: play_specific_song rebuilds the playlist from the directory
listing before validating the index, so even a failing call (invalid index
or empty listing) replaces any shuffled ordering with the fresh
directory-order snapshot while current_song_index, is_playing and
is_shuffling keep their old values, and the reported outcome is one of the
two errors. -/
theorem c10_select_frame (s : PlayerState) (d : List String) (i : Int) (lo : Bool)
    (hfail : ¬ (0 ≤ i ∧ i < ((get_song_list d).length : Int))) :
    (play_specific_song s d i lo).1.songs = get_song_list d ∧
    (play_specific_song s d i lo).1.current_song_index = s.current_song_index ∧
    (play_specific_song s d i lo).1.is_playing = s.is_playing ∧
    (play_specific_song s d i lo).1.is_shuffling = s.is_shuffling ∧
    ((play_specific_song s d i lo).2 = NavResult.emptyPlaylist ∨
      (play_specific_song s d i lo).2 = NavResult.invalidIndex) := by
  have hfail' : ¬ (0 ≤ i ∧ i < (((refresh_list s d).songs.length : Nat) : Int)) := hfail
  simp only [play_specific_song]
  by_cases hemp : (refresh_list s d).songs = []
  · rw [if_pos hemp]
    exact ⟨rfl, rfl, rfl, rfl, Or.inl rfl⟩
  · rw [if_neg hemp, if_neg hfail']
    exact ⟨rfl, rfl, rfl, rfl, Or.inr rfl⟩

theorem c10_select_frame_witness :
    (¬ ((0 : Int) ≤ 5 ∧ (5 : Int) < ((get_song_list ["a.mp3"]).length : Int))) ∧
    (play_specific_song ⟨false, true, 0, ["b", "a"]⟩ ["a.mp3"] 5 true).1.songs
      = get_song_list ["a.mp3"] :=
  ⟨by decide, (c10_select_frame ⟨false, true, 0, ["b", "a"]⟩ ["a.mp3"] 5 true (by decide)).1⟩

/-- C1 counterexample: a reachable state — two songs selected at index 1,
shuffle then turned on — on which toggling shuffle off rebuilds the
playlist from a directory that now holds a single mp3 file; the rebuilt
playlist is non-empty yet current_song_index is 1, outside its bounds:
the rebuild neither clamps nor resets the index. -/
theorem c1_counterexample :
    Reachable ⟨true, true, 1, ["b", "a"]⟩ ∧
    (toggle_shuffle ⟨true, true, 1, ["b", "a"]⟩ ["a", "b"] ["a.mp3"]).songs ≠ [] ∧
    ¬ ((toggle_shuffle ⟨true, true, 1, ["b", "a"]⟩ ["a", "b"] ["a.mp3"]).current_song_index
        < ((toggle_shuffle ⟨true, true, 1, ["b", "a"]⟩ ["a", "b"] ["a.mp3"]).songs.length
            : Int)) := by
  refine ⟨?_, by decide, by decide⟩
  have h0 : Reachable ⟨false, false, 0, []⟩ := Reachable.init
  have h1 := Reachable.select_step ⟨false, false, 0, []⟩ ["a.mp3", "b.mp3"] 1 true h0
  have e1 : (play_specific_song ⟨false, false, 0, []⟩ ["a.mp3", "b.mp3"] 1 true).1
      = ⟨true, false, 1, ["a", "b"]⟩ := by decide
  rw [e1] at h1
  have h2 := Reachable.shuffle_step ⟨true, false, 1, ["a", "b"]⟩ ["b", "a"] [] h1 (by decide)
  have e2 : toggle_shuffle ⟨true, false, 1, ["a", "b"]⟩ ["b", "a"] []
      = ⟨true, true, 1, ["b", "a"]⟩ := by decide
  rw [e2] at h2
  exact h2

/-- C1 amended: only a successful play_specific_song validates the index
against its rebuilt playlist (establishing 0 <= current_song_index < len);
turning shuffle on permutes in place, preserving the playlist length and
the index, so a previously valid index stays valid; but the refresh rebuild
itself — run by toggling shuffle off and by a failing play_specific_song —
passes current_song_index through unchanged, with no clamping or reset. -/
theorem c1_amended_validation :
    (∀ (s : PlayerState) (d : List String) (i : Int) (lo : Bool),
        0 ≤ i → i < ((get_song_list d).length : Int) →
        0 ≤ (play_specific_song s d i lo).1.current_song_index ∧
        (play_specific_song s d i lo).1.current_song_index <
          ((play_specific_song s d i lo).1.songs.length : Int)) ∧
    (∀ (s : PlayerState) (shuffled d : List String),
        s.is_shuffling = false → shuffled.Perm s.songs →
        (toggle_shuffle s shuffled d).songs.length = s.songs.length ∧
        (toggle_shuffle s shuffled d).current_song_index = s.current_song_index) ∧
    (∀ (s : PlayerState) (d : List String),
        (refresh_list s d).current_song_index = s.current_song_index ∧
        (refresh_list s d).songs = get_song_list d) := by
  refine ⟨?_, ?_, fun s d => ⟨rfl, rfl⟩⟩
  · intro s d i lo h0 hlt
    have hne : ¬ ((refresh_list s d).songs = []) := by
      intro h
      have h' : get_song_list d = [] := h
      rw [h'] at hlt
      simp at hlt
      omega
    have hcond : 0 ≤ i ∧ i < (((refresh_list s d).songs.length : Nat) : Int) := ⟨h0, hlt⟩
    simp only [play_specific_song]
    rw [if_neg hne, if_pos hcond, play_selected_song_index, set_index_current]
    refine ⟨h0, ?_⟩
    rw [play_selected_song_songs]
    exact hlt
  · intro s shuffled d hoff hperm
    constructor
    · simp only [toggle_shuffle, hoff]
      simp
      exact hperm.length_eq
    · simp [toggle_shuffle, hoff]

theorem c1_amended_validation_witness :
    ((0 : Int) ≤ 0 ∧ (0 : Int) < ((get_song_list ["a.mp3"]).length : Int)) ∧
    (0 ≤ (play_specific_song ⟨false, false, 0, []⟩ ["a.mp3"] 0 true).1.current_song_index ∧
      (play_specific_song ⟨false, false, 0, []⟩ ["a.mp3"] 0 true).1.current_song_index <
        ((play_specific_song ⟨false, false, 0, []⟩ ["a.mp3"] 0 true).1.songs.length : Int)) :=
  ⟨⟨by decide, by decide⟩,
    c1_amended_validation.1 ⟨false, false, 0, []⟩ ["a.mp3"] 0 true (by decide) (by decide)⟩

